import Mathlib

set_option maxHeartbeats 1000000
set_option maxRecDepth 8000

/-!
Verification of the geographic name-normalization, validation, aggregation and
forecasting pipeline of this repository.  Every definition below is a direct
shallow embedding of the corresponding Python source:

* `state_map`, `ts_districts`, `district_map`, `cleanLex`, `stateFix`,
  `reassignState`, `districtFix`, `cleanPair` embed `clean_data` from
  `Cleaned Data/Data Cleaning.py` (per-record semantics of the column-wise
  pandas operations, in the exact order of the source).  Python `dict`
  literals keep the *last* binding of a duplicated key, which `dictGet`
  reproduces by folding left over the literal entry order.
* The validation gate (`hasNulls`, `hasPlaceholders`, `hasNegative`,
  `districtsOk`, `gateCheck`, `runMerge`) embeds the
  "Validate, Merge & Retrain" flow of `main.py` together with the check
  functions of `data_cleanning.py`.
* `FullRow`, `rowsFor`, `sumField`, `aggregateAt` embed the groupby/agg merge
  of `process_final_data` (sum for numeric columns, first for `Region`,
  mean for `CV_Volatility`, ratios recomputed from the merged totals).
* `CountRow`, `enrolTotal`, `updateTotal`, `R6_Ghost_Proxy`,
  `R4_Adult_Entry_Rate`, `zscoreR7` embed `calculate_metrics`.
* `fitClasses`, `generatePrediction` embed the label-encoder fitting of
  `train_model.py` and the "Generate Prediction" handler of `main.py`.
-/

namespace Aadhaar

/-- Last-wins association-list lookup: the semantics of looking a key up in a
Python `dict` literal that may repeat keys (the later binding shadows the
earlier one). -/
def dictGet (m : List (String × String)) (k : String) : Option String :=
  m.foldl (fun acc p => if p.fst = k then some p.snd else acc) none

/-- Whitespace characters removed by Python `str.strip()` (the ones that can
occur in this data). -/
def isWS (c : Char) : Bool :=
  c = ' ' || c = '\t' || c = '\n' || c = '\r'

/-- Trim leading and trailing whitespace from a character list. -/
def trimChars (l : List Char) : List Char :=
  ((l.dropWhile isWS).reverse.dropWhile isWS).reverse

/-- Lexical cleanup applied to the `district` column of `clean_data`:
drop non-ASCII characters (the regex `[^\x00-\x7F]+` replacement), remove
every `*`, then strip surrounding whitespace. -/
def cleanLex (s : String) : String :=
  String.mk (trimChars ((s.toList.filter (fun c => c.toNat ≤ 127)).filter (fun c => c ≠ '*')))

/-- The specific merged-name fix of `clean_data` (line 68 of the source). -/
def fixMerged (d : String) : String :=
  if d = "ManendragarhChirmiriBharatpur" then "Manendragarh-Chirmiri-Bharatpur" else d

/-- `state_map` of `clean_data`, transcribed in source order. -/
def state_map : List (String × String) := [
  ("WEST BENGAL", "West Bengal"), ("WESTBENGAL", "West Bengal"),
  ("West bengal", "West Bengal"), ("Westbengal", "West Bengal"),
  ("West Bengli", "West Bengal"), ("west Bengal", "West Bengal"),
  ("West  Bengal", "West Bengal"), ("West Bangal", "West Bengal"),
  ("odisha", "Odisha"), ("ODISHA", "Odisha"), ("Orissa", "Odisha"),
  ("andhra pradesh", "Andhra Pradesh"),
  ("Andaman & Nicobar Islands", "Andaman and Nicobar Islands"),
  ("Dadra & Nagar Haveli", "Dadra and Nagar Haveli and Daman and Diu"),
  ("Dadra and Nagar Haveli", "Dadra and Nagar Haveli and Daman and Diu"),
  ("Daman & Diu", "Dadra and Nagar Haveli and Daman and Diu"),
  ("Daman and Diu", "Dadra and Nagar Haveli and Daman and Diu"),
  ("The Dadra And Nagar Haveli And Daman And Diu", "Dadra and Nagar Haveli and Daman and Diu"),
  ("Pondicherry", "Puducherry"), ("Uttaranchal", "Uttarakhand"),
  ("Tamilnadu", "Tamil Nadu"), ("Chhatisgarh", "Chhattisgarh"),
  ("Telanana", "Telangana"),
  ("100000", "Unknown"),
  ("Jaipur", "Rajasthan"), ("Nagpur", "Maharashtra"), ("Darbhanga", "Bihar"),
  ("Madanapalle", "Andhra Pradesh"), ("BALANAGAR", "Telangana"),
  ("Puttenahalli", "Karnataka"), ("Raja Annamalai Puram", "Tamil Nadu")]

/-- The state-name correction step: `df['state'].replace(state_map)`
(pandas `replace` is a case-sensitive exact lookup, identity on misses). -/
def stateFix (s : String) : String :=
  (dictGet state_map s).getD s

/-- `ts_districts` of `clean_data`: districts moved from Andhra Pradesh to
Telangana (transcribed in source order, including the en-dash entry). -/
def ts_districts : List String := [
  "Adilabad", "Hyderabad", "K.V RANGAEEDDY", "Karimnagar", "Khammam",
  "Mahabubnagar", "Medak", "Nalgonda", "Nizamabad", "Rangareddi",
  "Warangal", "Warangal(urban)", "Warangal(rural)", "Jagitial",
  "Jangaon", "Jayashankar Bhupalpally", "Jogulamba Gadwal",
  "Kamareddy", "Komaram Bheem Asifabad", "Mahabubabad", "Mancherial",
  "Medchal–Malkajgiri", "Mulugu", "Nagarkurnool", "Narayanpet",
  "Nirmal", "Peddapalli", "Rajanna Sircilla", "Sangareddy",
  "Siddipet", "Suryapet", "Vikarabad", "Wanaparthy", "Yadadri"]

/-- The conditional state-reassignment rules of `clean_data` (the Kamrup fix
and the `.loc` rules of section 3), applied sequentially in source order:
each rule tests the state value as already modified by the previous rules. -/
def reassignState (s d : String) : String :=
  let s1 := if s = "Meghalaya" && d = "Kamrup" then "Assam" else s
  let s2 := if s1 = "Andhra Pradesh" && ts_districts.contains d then "Telangana" else s1
  let s3 := if s2 = "Chandigarh" && (d = "Mohali" || d = "Rupnagar") then "Punjab" else s2
  let s4 := if s3 = "Puducherry" && (d = "Cuddalore" || d = "Viluppuram") then "Tamil Nadu" else s3
  let s5 := if s4 = "Andhra Pradesh" && d = "Karim Nagar" then "Telangana" else s4
  let s6 := if s5 = "Andhra Pradesh" && d = "Ranga Reddy" then "Telangana" else s5
  let s7 := if s6 = "Andhra Pradesh" && d = "Mahabub Nagar" then "Telangana" else s6
  let s8 := if s7 = "Jammu and Kashmir" && d = "Leh" then "Ladakh" else s7
  let s9 := if s8 = "Jammu and Kashmir" && d = "Kargil" then "Ladakh" else s8
  if s9 = "Jammu and Kashmir" && d = "Leh (ladakh)" then "Ladakh" else s9

/-- `district_map` of `clean_data`, transcribed verbatim in source order.
Duplicate keys are kept: `dictGet` resolves them last-wins, exactly as the
Python `dict` literal does. -/
def district_map : List (String × String) := [
  ("Bardhaman", "Purba Bardhaman"), ("Burdwan", "Purba Bardhaman"),
  ("CoochBehar", "Cooch Behar"), ("Coochbehar", "Cooch Behar"),
  ("South Dinajpur", "Dakshin Dinajpur"), ("North Dinajpur", "Uttar Dinajpur"),
  ("Domjur", "Howrah"), ("East Midnapore", "Purba Medinipur"),
  ("West Medinipur", "Paschim Medinipur"), ("Medinipur", "Paschim Medinipur"),
  ("Medinipur West", "Paschim Medinipur"), ("Naihati Anandbazar", "North 24 Parganas"),
  ("Naihati Anandabazar", "North 24 Parganas"), ("Nortg 24 praganas", "North 24 Parganas"),
  ("South 24 praganas", "South 24 Parganas"),
  ("Garhwal", "Pauri Garhwal"), ("Allahabad", "Prayagraj"), ("Faizabad", "Ayodhya"),
  ("Sant Ravidas Nagar", "Bhadohi"), ("Sant Ravidas Nagar Bhadohi", "Bhadohi"),
  ("Baghpat", "Baghpat"), ("Barabanki", "Barabanki"), ("Kushinagar", "Kushinagar"),
  ("Maharajganj", "Maharajganj"), ("Raebareli", "Raebareli"),
  ("Shravasti", "Shravasti"), ("Siddharthnagar", "Siddharthnagar"),
  ("IDPL COLONY", "Unknown"), ("Jagitial", "Jagtial"), ("Jangaon", "Jangaon"),
  ("K.v. Rangareddy", "Ranga Reddy"), ("K.V RANGAEEDDY", "Ranga Reddy"),
  ("Rangareddy", "Ranga Reddy"), ("Komaram Bheem Asifabad", "Komaram Bheem"),
  ("Medchal–Malkajgiri", "Medchal Malkajgiri"), ("Warangal(urban)", "Hanumakonda"),
  ("Warangal(rural)", "Warangal"), ("Yadadri", "Yadadri Bhuvanagiri"),
  ("Andamans", "South Andaman"), ("Nicobars", "Nicobar"), ("Ananthapur", "Ananthapuramu"),
  ("Cuddapah", "YSR Kadapa"), ("Chittoor", "Chittoor"),
  ("Shiyomi", "Shi Yomi"), ("Pakke-Kessang", "Pakke Kessang"), ("Kra-Daadi", "Kra Daadi"),
  ("Kamrup Metropolitan", "Kamrup Metro"), ("South Salmara-Mankachar", "South Salmara Mankachar"),
  ("Chhatrapati Sambhajinagar", "Chatrapati Sambhaji Nagar"),
  ("Kaimur", "Kaimur (Bhabhua)"), ("Munger", "Munger"), ("Samastipur", "Samastipur"),
  ("Purnia", "Purnia"), ("Purba Champaran", "East Champaran"),
  ("Near university", "Unknown"),
  ("Dantewada", "Dantewada"), ("Janjgir-Champa", "Janjgir-Champa"),
  ("Gaurela-Pendra-Marwahi", "Gaurella-Pendra-Marwahi"),
  ("Mohla-Manpur-Ambagarh Chowki", "Mohla-Manpur-Ambagarh Chowki"),
  ("Ahmadabad", "Ahmedabad"), ("Banas Kantha", "Banaskantha"),
  ("Panch Mahals", "Panchmahal"), ("Sabar Kantha", "Sabarkantha"),
  ("Surendra Nagar", "Surendranagar"), ("Yamuna Nagar", "Yamunanagar"),
  ("Lahaul and Spiti", "Lahaul and Spiti"), ("Lahul & Spiti", "Lahaul and Spiti"),
  ("Bandipore", "Bandipora"), ("Bandipur", "Bandipora"),
  ("Poonch", "Poonch"), ("Punch", "Poonch"), ("Rajauri", "Rajouri"),
  ("Shopian", "Shopian"), ("Shupiyan", "Shopian"), ("Udhampur", "Udhampur"),
  ("East Singhbum", "East Singhbhum"), ("Hazaribag", "Hazaribagh"),
  ("Koderma", "Kodarma"), ("Pakaur", "Pakur"), ("Palamau", "Palamu"),
  ("Sahebganj", "Sahibganj"), ("Seraikela-kharsawan", "Seraikela Kharsawan"),
  ("Pashchimi Singhbhum", "West Singhbhum"),
  ("5th cross", "Bengaluru Urban"), ("Bangalore", "Bengaluru Urban"),
  ("Bengaluru", "Bengaluru Urban"), ("Bijapur", "Vijayapura"),
  ("Chickmagalur", "Chikkamagaluru"),
  ("Chikmagalur", "Chikkamagaluru"), ("Davanagere", "Davangere"),
  ("Hasan", "Hassan"), ("Mysore", "Mysuru"), ("Ramanagar", "Ramanagara"),
  ("Shimoga", "Shivamogga"), ("Tumkur", "Tumakuru"), ("Yadgir", "Yadgir"),
  ("ANGUL", "Angul"), ("Boudh", "Boudh"), ("Jajpur", "Jajpur"),
  ("Jagatsinghpur", "Jagatsinghpur"), ("Khordha", "Khordha"),
  ("Nabarangpur", "Nabarangpur"), ("Subarnapur", "Subarnapur"),
  ("Muktsar", "Sri Muktsar Sahib"), ("Nawanshahr", "Shaheed Bhagat Singh Nagar"),
  ("S.A.S Nagar", "SAS Nagar (Mohali)"), ("Ferozepur", "Ferozepur"),
  ("Chittorgarh", "Chittorgarh"), ("Dholpur", "Dholpur"), ("Jalore", "Jalore"),
  ("Jhunjhunu", "Jhunjhunu"), ("Near meera hospital", "Unknown"),
  ("East Sikkim", "Gangtok"), ("North Sikkim", "Mangan (North)"),
  ("South Sikkim", "Namchi (South)"), ("West Sikkim", "Gyalshing (West)"),
  ("Near Dhyana Ashram", "Unknown"), ("Thiruvallur", "Tiruvallur"),
  ("Thiruvarur", "Tiruvarur"), ("Tuticorin", "Thoothukkudi"),
  ("Tirupattur", "Tirupattur"),
  ("Aurangabad", "Chhatrapati Sambhajinagar"), ("Osmanabad", "Dharashiv"),
  ("Ahmednagar", "Ahilyanagar"), ("Gurgaon", "Gurugram"),
  ("Budaun", "Badaun"), ("Bulandshahar", "Bulandshahr"),
  ("Mumbai( Sub Urban )", "Mumbai Suburban"),
  ("Chhatrapati Sambhaji Nagar", "Chhatrapati Sambhajinagar"),
  ("Mahbubnagar", "Mahabub Nagar"), ("Visakhapatanam", "Visakhapatnam"), ("Y. S. R", "YSR Kadapa"),
  ("chittoor", "Chittoor"), ("rangareddi", "Ranga Reddy"), ("K.V.Rangareddy", "Ranga Reddy"),
  ("Kadiri Road", "Sri Sathya Sai"), ("Anantapur", "Ananthapuramu"),
  ("Nellore", "Sri Potti Sriramulu Nellore"),
  ("Spsr Nellore", "Sri Potti Sriramulu Nellore"),
  ("Karimganj", "Sribhumi"), ("North Cachar Hills", "Dima Hasao"), ("Sibsagar", "Sivasagar"),
  ("Tamulpur District", "Tamulpur"),
  ("Aurangabad(BH)", "Aurangabad"), ("Aurangabad(bh)", "Aurangabad"), ("Bhabua", "Kaimur (Bhabua)"),
  ("Monghyr", "Munger"), ("Near University Thana", "Darbhanga"), ("Purnea", "Purnia"),
  ("Samstipur", "Samastipur"), ("Sheikpura", "Sheikhpura"), ("Pashchim Champaran", "West Champaran"),
  ("East Champaran", "Purbi Champaran"), ("West Champaran", "Paschim Champaran"),
  ("Dakshin Bastar Dantewada", "Dantewada"), ("Gaurela-pendra-marwahi", "Gaurella Pendra Marwahi"),
  ("Janjgir - Champa", "Janjgir-champa"), ("Janjgir Champa", "Janjgir-champa"),
  ("Manendragarh鈥揅hirmiri鈥揃haratpur", "Manendragarh-Chirmiri-Bharatpur"),
  ("Mohalla-Manpur-Ambagarh Chowki", "Mohla-Manpur-Ambagarh Chouki"), ("Vijayapura", "Bijapur"),
  ("Dadra & Nagar Haveli", "Dadra and Nagar Haveli"), ("Dadra And Nagar Haveli", "Dadra and Nagar Haveli"),
  ("Najafgarh", "South West Delhi"), ("North East", "North East Delhi"),
  ("Bardez", "North Goa"), ("Bicholim", "North Goa"), ("Tiswadi", "North Goa"),
  ("Panchmahals", "Panchmahal"), ("Dohad", "Dahod"), ("The Dangs", "Dangs"), ("Dang", "Dangs"),
  ("Akhera", "Rewari"), ("Mewat", "Nuh"),
  ("Lahul and Spiti", "Lahaul and Spiti"),
  ("?", "Jammu"), ("punch", "Poonch"), ("udhampur", "Udhampur"), ("Badgam", "Budgam"),
  ("Seraikela Kharsawan", "Seraikela-Kharsawan"), ("Purbi Singhbhum", "West Singhbhum"),
  ("Seraikela Kharsawan", "Seraikela-Kharsawan"),
  ("Bengaluru Rural", "Bangalore Rural"), ("Bijapur(KAR)", "Vijayapura"),
  ("Chamarajanagara", "Chamrajanagar"),
  ("Chamrajnagar", "Chamrajanagar"), ("yadgir", "Yadgir"), ("Bellary", "Ballari"),
  ("Belgaum", "Belagavi"),
  ("Gulbarga", "Kalaburagi"), ("Ramanagara", "Bengaluru South"),
  ("Kasargod", "Kasaragod"),
  ("Leh (ladakh)", "Leh"),
  ("Ashoknagar", "Ashok Nagar"), ("Narsimhapur", "Narsinghpur"), ("Hoshangabad", "Narmadapuram"),
  ("East Nimar", "Khandwa"), ("West Nimar", "Khargone"),
  ("Ahmadnagar", "Ahilyanagar"), ("Ahmed Nagar", "Ahilyanagar"),
  ("Aurangabad", "Chatrapati Sambhaji Nagar"),
  ("Bid", "Beed"), ("Buldana", "Buldhana"), ("Dist : Thane", "Thane"), ("Gondiya", "Gondia"),
  ("Near Uday nagar NIT garden", "Nagpur"), ("Raigarh", "Raigad"), ("Raigarh(MH)", "Raigad"),
  ("Jaintia Hills", "West Jaintia Hills"),
  ("Mammit", "Mamit"),
  ("ANUGUL", "Angul"), ("Anugal", "Angul"), ("Anugul", "Angul"), ("BALANGIR", "Balangir"),
  ("Baleshwar", "Baleswar"),
  ("Balianta", "Khordha"), ("Baudh", "Boudh"), ("Bhadrak(R)", "Bhadrak"), ("JAJPUR", "Jajpur"),
  ("Jajapur", "Jajpur"),
  ("Jagatsinghpur", "Jagatsinghapur"), ("Khorda", "Khordha"), ("NAYAGARH", "Nayagarh"),
  ("NUAPADA", "Nuapada"),
  ("Nabarangapur", "Nabarangpur"), ("Sonapur", "Subarnapur"), ("Sundergarh", "Sundargarh"),
  ("jajpur", "Jajpur"),
  ("Pondicherry", "Puducherry"), ("Yanam", "Puducherry"),
  ("Ferozepur", "Firozpur"), ("Mohali", "SAS Nagar (Mohali)"),
  ("S.A.S Nagar(Mohali)", "SAS Nagar (Mohali)"),
  ("SAS Nagar", "SAS Nagar (Mohali)"),
  ("Chittaurgarh", "Chittorgarh"), ("Dhaulpur", "Dholpur"), ("Jalor", "Jalore"),
  ("Jhunjhunun", "Jhunjhunu"),
  ("South", "Namchi (South)"), ("West", "Gyalshing (West)"), ("North", "Mangan (North)"),
  ("West", "Gyalshing (West)"), ("Mangan", "Mangan (North)"), ("Namchi", "Namchi (South)"),
  ("Kanchipuram", "Kancheepuram"), ("Kanniyakumari", "Kanyakumari"), ("Tirupattur", "Tirupathur"),
  ("Villupuram", "Viluppuram"),
  ("Jangoan", "Jangaon"), ("Medchal Malkajgiri", "Medchal-Malkajgiri"),
  ("Medchal-malkajgiri", "Medchal-Malkajgiri"),
  ("Medchal芒聢聮malkajgiri", "Medchal-Malkajgiri"), ("Medchal鈭抦alkajgiri", "Medchal-Malkajgiri"),
  ("Rangareddi", "Ranga Reddy"), ("Warangal (urban)", "Hanumakonda"), ("Warangal Urban", "Hanumakonda"),
  ("Warangal Rural", "Warangal"), ("Yadadri.", "Yadadri Bhuvanagiri"),
  ("Medchalmalkajgiri", "Medchal-Malkajgiri"),
  ("Mahabub Nagar", "Mahabubnagar"), ("Karim Nagar", "Karimnagar"),
  ("Baghpat", "Bagpat"), ("Bara Banki", "Barabanki"), ("Jyotiba Phule Nagar", "Amroha"),
  ("Kheri", "Lakhimpur Kheri"),
  ("Kushi Nagar", "Kushinagar"), ("Mahrajganj", "Maharajganj"), ("Raebareli", "Rae Bareli"),
  ("Shrawasti", "Shravasti"),
  ("Siddharth Nagar", "Siddharthnagar"),
  ("Hardwar", "Haridwar"),
  ("24 Paraganas North", "North 24 Parganas"), ("24 Paraganas South", "South 24 Parganas"),
  ("Bally Jagachha", "Howrah"), ("Darjiling", "Darjeeling"), ("Dinajpur Dakshin", "Dakshin Dinajpur"),
  ("Dinajpur Uttar", "Uttar Dinajpur"), ("East Midnapur", "Purba Medinipur"),
  ("East midnapore", "Purba Medinipur"),
  ("HOOGHLY", "Hooghly"), ("Hooghiy", "Hooghly"), ("HOWRAH", "Howrah"), ("Haora", "Howrah"),
  ("Hawrah", "Howrah"),
  ("Hugli", "Hooghly"), ("KOLKATA", "Kolkata"), ("Koch Bihar", "Cooch Behar"), ("MALDA", "Malda"),
  ("Maldah", "Malda"),
  ("NADIA", "Nadia"), ("North Twenty Four Parganas", "North 24 Parganas"), ("Puruliya", "Purulia"),
  ("South  Twenty Four Parganas", "South 24 Parganas"), ("South 24 Pargana", "South 24 Parganas"),
  ("South 24 pargana", "South 24 Parganas"), ("South 24 parganas", "South 24 Parganas"),
  ("South Twenty Four Parganas", "South 24 Parganas"), ("South DumDum(M)", "North 24 Parganas"),
  ("West Midnapore", "Paschim Medinipur"), ("east midnapore", "Purba Medinipur"),
  ("hooghly", "Hooghly"), ("nadia", "Nadia")]

/-- The district-name correction step: `df['district'].replace(district_map)`
(case-sensitive exact lookup, identity on misses). -/
def districtFix (d : String) : String :=
  (dictGet district_map d).getD d

/-- Character-wise lowercasing, used to exhibit casing variants of a string. -/
def lowerStr (s : String) : String :=
  String.mk (s.toList.map Char.toLower)

/-- Per-record semantics of `clean_data` on the `(state, district)` key:
lexical cleanup of the district, merged-name fix, state-name correction,
conditional state reassignment, district-name correction, then the row drops
for the sentinels `Unknown` and `100000` — in the exact order of the source.
`none` means the record is dropped. -/
def cleanPair (state district : String) : Option (String × String) :=
  let d1 := fixMerged (cleanLex district)
  let s1 := stateFix state
  let s2 := reassignState s1 d1
  let d2 := districtFix d1
  if d2 = "Unknown" then none
  else if s2 = "Unknown" then none
  else if s2 = "100000" then none
  else if d2 = "100000" then none
  else some (s2, d2)

/-! ## Validation gate (`data_cleanning.py` checks, `main.py` merge flow) -/

/-- One cell of an uploaded batch: missing (pandas `NaN`), a string, or an
integer count. -/
inductive Cell where
  | null : Cell
  | str : String → Cell
  | num : Int → Cell
deriving DecidableEq, Repr

/-- Pandas `astype(str)` view of a cell, as used by `check_placeholders` and
`validate_districts` (`NaN` prints as `nan`). -/
def cellStr : Cell → String
  | Cell.null => "nan"
  | Cell.str s => s
  | Cell.num n => toString n

/-- `inspect_nulls` condition: the batch contains at least one null cell
(`df.isnull().sum().sum() > 0`). -/
def hasNulls (b : List (List Cell)) : Bool :=
  b.any (fun r => r.any (fun c => c = Cell.null))

/-- The forbidden placeholder tokens of `check_placeholders`. -/
def placeholderTokens : List String := ["?", " "]

/-- `check_placeholders` condition: some cell, viewed as a string, is exactly
a forbidden placeholder token. -/
def hasPlaceholders (b : List (List Cell)) : Bool :=
  b.any (fun r => r.any (fun c => placeholderTokens.contains (cellStr c)))

/-- The negative-value condition of the `main.py` validation block:
`(new_data[existing_numeric] < 0).any().any()` over the designated count
columns (given here by their indices `negCols`). -/
def hasNegative (negCols : List Nat) (b : List (List Cell)) : Bool :=
  b.any (fun r => negCols.any (fun i =>
    match r.get? i with
    | some (Cell.num n) => n < 0
    | _ => false))

/-- `validate_districts` condition: every district value of the batch
(column index `dIdx`), stripped, appears in the taxonomy list read from
`districts.txt`. -/
def districtsOk (tax : List String) (dIdx : Nat) (b : List (List Cell)) : Bool :=
  b.all (fun r =>
    match r.get? dIdx with
    | some c => tax.contains (String.mk (trimChars (cellStr c).toList))
    | none => false)

/-- The possible outcomes of the validation block. -/
inductive GateResult where
  | failNulls : GateResult
  | failPlaceholder : GateResult
  | failNegative : GateResult
  | failDistrict : GateResult
  | pass : GateResult
deriving DecidableEq, Repr

/-- The `main.py` "Validate, Merge & Retrain" validation block: it runs
`inspect_nulls`, then `check_placeholders`, then the negative-value check on
the designated count columns, then `validate_districts`; the first raising
check aborts the flow (first-failure semantics of sequential `raise`). -/
def gateCheck (tax : List String) (dIdx : Nat) (negCols : List Nat)
    (b : List (List Cell)) : GateResult :=
  if hasNulls b then GateResult.failNulls
  else if hasPlaceholders b then GateResult.failPlaceholder
  else if hasNegative negCols b then GateResult.failNegative
  else if districtsOk tax dIdx b then GateResult.pass
  else GateResult.failDistrict

/-- Modelled from the spec: the check order the specification prescribes for
the Validation Gate — nulls, placeholders, then the referential district
check, and the numeric-sanity check last.  Kept only to compare with
`gateCheck`, the order the code actually implements. -/
def specGateCheck (tax : List String) (dIdx : Nat) (negCols : List Nat)
    (b : List (List Cell)) : GateResult :=
  if hasNulls b then GateResult.failNulls
  else if hasPlaceholders b then GateResult.failPlaceholder
  else if !districtsOk tax dIdx b then GateResult.failDistrict
  else if hasNegative negCols b then GateResult.failNegative
  else GateResult.pass

/-- The state of the master table after the `main.py` flow: the batch is
concatenated onto the master table (and the file rewritten) only when every
validation check passed; any raised check leaves the master table untouched. -/
def runMerge (tax : List String) (dIdx : Nat) (negCols : List Nat)
    (master batch : List (List Cell)) : List (List Cell) :=
  if gateCheck tax dIdx negCols batch = GateResult.pass then master ++ batch else master

/-! ## Aggregation and reconciliation (`process_final_data`) -/

/-- One row of `aadhaar_district_analytics_full.csv`, the input and output
shape of the `process_final_data` merge (numeric fields as exact rationals). -/
structure FullRow where
  state : String
  district : String
  age_0_5 : ℚ
  age_5_17 : ℚ
  age_18_greater : ℚ
  demo_age_5_17 : ℚ
  demo_age_17_ : ℚ
  bio_age_5_17 : ℚ
  bio_age_17_ : ℚ
  Enrol_Total : ℚ
  Update_Total : ℚ
  Grand_Total : ℚ
  UER_Score : ℚ
  Adult_Entry_Rate : ℚ
  Catch_Up_Index : ℚ
  Region : String
  CV_Volatility : ℚ
deriving DecidableEq, Repr

/-- The rows of a table contributing to canonical key `k`
(the group of `df.groupby(['state', 'district'])`). -/
def rowsFor (k : String × String) (rows : List FullRow) : List FullRow :=
  rows.filter (fun r => r.state = k.1 && r.district = k.2)

/-- Group total of one numeric field (the `'sum'` aggregation). -/
def sumField (f : FullRow → ℚ) (k : String × String) (rows : List FullRow) : ℚ :=
  ((rowsFor k rows).map f).sum

/-- The `process_final_data` merge for canonical key `k`: numeric columns are
summed, `Region` keeps the first occurring value, `CV_Volatility` is averaged
(`agg_dict['CV_Volatility'] = 'mean'`), and the three ratio fields are then
recomputed from the merged totals, overwriting the summed values. -/
def aggregateAt (rows : List FullRow) (k : String × String) : FullRow :=
  { state := k.1
    district := k.2
    age_0_5 := sumField FullRow.age_0_5 k rows
    age_5_17 := sumField FullRow.age_5_17 k rows
    age_18_greater := sumField FullRow.age_18_greater k rows
    demo_age_5_17 := sumField FullRow.demo_age_5_17 k rows
    demo_age_17_ := sumField FullRow.demo_age_17_ k rows
    bio_age_5_17 := sumField FullRow.bio_age_5_17 k rows
    bio_age_17_ := sumField FullRow.bio_age_17_ k rows
    Enrol_Total := sumField FullRow.Enrol_Total k rows
    Update_Total := sumField FullRow.Update_Total k rows
    Grand_Total := sumField FullRow.Grand_Total k rows
    UER_Score :=
      sumField FullRow.Update_Total k rows / (sumField FullRow.Enrol_Total k rows + 1)
    Adult_Entry_Rate :=
      sumField FullRow.age_18_greater k rows / (sumField FullRow.Enrol_Total k rows + 1)
    Catch_Up_Index :=
      sumField FullRow.age_5_17 k rows / (sumField FullRow.age_0_5 k rows + 1)
    Region := ((rowsFor k rows).head?.map FullRow.Region).getD ""
    CV_Volatility :=
      ((rowsFor k rows).map FullRow.CV_Volatility).sum / ((rowsFor k rows).length : ℚ) }

/-! ## Metric derivation (`calculate_metrics`) -/

/-- The seven aggregated counters a district row carries when
`calculate_metrics` derives its ratios. -/
structure CountRow where
  age_0_5 : ℚ
  age_5_17 : ℚ
  age_18_greater : ℚ
  demo_age_5_17 : ℚ
  demo_age_17_ : ℚ
  bio_age_5_17 : ℚ
  bio_age_17_ : ℚ
deriving DecidableEq, Repr

/-- `Enrol_Total` of `calculate_metrics`. -/
def enrolTotal (r : CountRow) : ℚ :=
  r.age_0_5 + r.age_5_17 + r.age_18_greater

/-- `Update_Total` of `calculate_metrics`. -/
def updateTotal (r : CountRow) : ℚ :=
  r.demo_age_5_17 + r.demo_age_17_ + r.bio_age_5_17 + r.bio_age_17_

/-- `Grand_Total` of `calculate_metrics`. -/
def grandTotal (r : CountRow) : ℚ :=
  enrolTotal r + updateTotal r

/-- The low-volume filter of `calculate_metrics`: `df['Grand_Total'] > 500`. -/
def lowVolumeKeep (r : CountRow) : Bool :=
  grandTotal r > 500

/-- `R4_Adult_Entry_Rate` of `calculate_metrics`. -/
def R4_Adult_Entry_Rate (r : CountRow) : ℚ :=
  r.age_18_greater / (enrolTotal r + 1)

/-- `R6_Ghost_Proxy` of `calculate_metrics`:
`Enrol_Total / (Update_Total + 1)`. -/
def R6_Ghost_Proxy (r : CountRow) : ℚ :=
  enrolTotal r / (updateTotal r + 1)

/-- Mean of a list of rationals (`pandas .mean()`). -/
def meanQ (l : List ℚ) : ℚ :=
  l.sum / (l.length : ℚ)

/-- The `R4_Adult_Entry_Rate` values of the z-score scenario batch. -/
def r4Values : List ℚ := [1/100, 1/50, 3/200, 1/2]

/-- `R7_Adult_ZScore` of `calculate_metrics` as a function of the batch mean
`m`, the batch standard deviation `σ` and the row value `x`:
`(x - mean) / (std + 1e-5)`.  Over ℝ because the batch standard deviation is
a real square root; the claims about it are settled symbolically. -/
noncomputable def zscoreR7 (m σ x : ℝ) : ℝ :=
  (x - m) / (σ + 1 / 100000)

/-! ## Forecasting front-end (`train_model.py`, `main.py` prediction tab) -/

/-- The classes a fitted `LabelEncoder` knows: the distinct values of the
column it was fitted on (`le.fit_transform(col)`; sklearn stores them sorted,
which does not affect membership). -/
def fitClasses (col : List String) : List String :=
  col.dedup

/-- The two rejection messages of the "Generate Prediction" handler. -/
inductive PredError where
  | unknownState : PredError
  | unknownDistrict : PredError
deriving DecidableEq, Repr

/-- The "Generate Prediction" handler of `main.py`: reject when the selected
state is not among the state encoder classes, then when the district is not
among the district encoder classes; only otherwise encode both and call
`model.predict` (abstracted as `model`). -/
def generatePrediction (sc dc : List String) (model : Nat → Nat → Int → Nat → ℚ × ℚ)
    (s d : String) (year : Int) (month : Nat) : Except PredError (ℚ × ℚ) :=
  if s ∉ sc then Except.error PredError.unknownState
  else if d ∉ dc then Except.error PredError.unknownDistrict
  else Except.ok (model (sc.indexOf s) (dc.indexOf d) year month)

/-! ## Concrete data used by witnesses and counterexamples -/

/-- A taxonomy list for gate scenarios. -/
def tax0 : List String := ["Pune"]

/-- A small master table for gate scenarios. -/
def master0 : List (List Cell) := [[Cell.str "Pune", Cell.num 7]]

/-- A batch containing one null cell. -/
def batchNull : List (List Cell) := [[Cell.null, Cell.num 5]]

/-- A batch whose district is out of taxonomy and whose count column is
negative (no nulls, no placeholders). -/
def batchNegUnknown : List (List Cell) := [[Cell.str "Atlantis", Cell.num (-5)]]

/-- A corrected-batch row under the canonical key (Telangana, Ranga Reddy). -/
def wRow1 : FullRow :=
  ⟨"Telangana", "Ranga Reddy", 1, 2, 3, 4, 5, 6, 7, 6, 22, 28, 0, 0, 0, "South", 1⟩

/-- A second corrected-batch row under the same canonical key. -/
def wRow2 : FullRow :=
  ⟨"Telangana", "Ranga Reddy", 10, 20, 30, 40, 50, 60, 70, 60, 220, 280, 0, 0, 0, "South", 3⟩

/-- An aggregated row realizing the zero-denominator scenario:
1000 enrolments, 0 updates. -/
def ghostRow : CountRow := ⟨1000, 0, 0, 0, 0, 0, 0⟩

/-! ## Claim theorems -/

/-- Claim C1, counterexample.  `(Andhra Pradesh, Ranga Reddy)` is canonical in
the claim's sense — both components are values but not keys of the correction
tables — and it is a key `clean_data` itself produces (from the raw district
`rangareddi`); yet applying `clean_data` to it again moves the state to
Telangana, so normalization is not idempotent on already-canonical pairs. -/
theorem clean_idempotent_cex :
    dictGet state_map "Andhra Pradesh" = none ∧
    (state_map.map Prod.snd).contains "Andhra Pradesh" = true ∧
    dictGet district_map "Ranga Reddy" = none ∧
    (district_map.map Prod.snd).contains "Ranga Reddy" = true ∧
    cleanPair "Andhra Pradesh" "rangareddi" = some ("Andhra Pradesh", "Ranga Reddy") ∧
    cleanPair "Andhra Pradesh" "Ranga Reddy" = some ("Telangana", "Ranga Reddy") := by
  decide

/-- Claim C1, amended.  `clean_data` is idempotent on a `(state, district)`
pair as long as the pair is untouched by every stage: the district is a fixed
point of the lexical cleanup and not the merged-name special case, neither
component is a key of its correction table, no conditional state-reassignment
rule matches the pair, and neither component is a drop sentinel. -/
theorem clean_idempotent_outside_reassignment (s d : String)
    (hlex : cleanLex d = d) (hm : d ≠ "ManendragarhChirmiriBharatpur")
    (hs : dictGet state_map s = none) (hr : reassignState s d = s)
    (hd : dictGet district_map d = none)
    (hdu : d ≠ "Unknown") (hsu : s ≠ "Unknown")
    (hsh : s ≠ "100000") (hdh : d ≠ "100000") :
    cleanPair s d = some (s, d) := by
  simp [cleanPair, fixMerged, stateFix, districtFix, hlex, hm, hs, hr, hd, hdu, hsu, hsh, hdh]

/-- Witness for C1 amended at the canonical pair (Telangana, Ranga Reddy). -/
theorem clean_idempotent_outside_reassignment_witness :
    cleanLex "Ranga Reddy" = "Ranga Reddy" ∧
    dictGet state_map "Telangana" = none ∧
    reassignState "Telangana" "Ranga Reddy" = "Telangana" ∧
    dictGet district_map "Ranga Reddy" = none ∧
    cleanPair "Telangana" "Ranga Reddy" = some ("Telangana", "Ranga Reddy") :=
  ⟨by decide, by decide, by decide, by decide,
   clean_idempotent_outside_reassignment "Telangana" "Ranga Reddy"
     (by decide) (by decide) (by decide) (by decide) (by decide)
     (by decide) (by decide) (by decide) (by decide)⟩

/-- Claim C4.  The raw row (Andhra Pradesh, K.V RANGAEEDDY) resolves to the
canonical key (Telangana, Ranga Reddy): the state-reassignment stage fires
first (the raw spelling is in the Telangana transfer set), then the
district-name correction maps the typo to Ranga Reddy. -/
theorem rule_order_kv_rangaeeddy :
    reassignState "Andhra Pradesh" "K.V RANGAEEDDY" = "Telangana" ∧
    districtFix "K.V RANGAEEDDY" = "Ranga Reddy" ∧
    cleanPair "Andhra Pradesh" "K.V RANGAEEDDY" = some ("Telangana", "Ranga Reddy") := by
  decide

/-- Claim C9, counterexample.  The correction lookup has no case-insensitive
fallback: `Bijapur` is a mapped raw spelling, `BIJAPUR` is a casing variant of
it, yet `BIJAPUR` passes through the district correction — and the whole
cleaning pipeline — unchanged instead of being corrected to `Vijayapura`. -/
theorem replace_case_fallback_cex :
    districtFix "Bijapur" = "Vijayapura" ∧
    lowerStr "BIJAPUR" = lowerStr "Bijapur" ∧
    districtFix "BIJAPUR" = "BIJAPUR" ∧
    cleanPair "Karnataka" "BIJAPUR" = some ("Karnataka", "BIJAPUR") := by
  decide

/-- Claim C9, amended.  The correction lookup of the Name Normalizer is a
single case-sensitive exact match against the correction tables: a string
that is not literally a key is left unchanged (casing variants are corrected
only when they appear as explicit keys of their own). -/
theorem replace_case_sensitive_only (s d : String)
    (hs : dictGet state_map s = none) (hd : dictGet district_map d = none) :
    stateFix s = s ∧ districtFix d = d := by
  unfold stateFix districtFix
  rw [hs, hd]
  exact ⟨rfl, rfl⟩

/-- Witness for C9 amended at the casing variants KARNATAKA / BIJAPUR. -/
theorem replace_case_sensitive_only_witness :
    dictGet state_map "KARNATAKA" = none ∧
    dictGet district_map "BIJAPUR" = none ∧
    stateFix "KARNATAKA" = "KARNATAKA" ∧ districtFix "BIJAPUR" = "BIJAPUR" :=
  ⟨by decide, by decide,
   (replace_case_sensitive_only "KARNATAKA" "BIJAPUR" (by decide) (by decide)).1,
   (replace_case_sensitive_only "KARNATAKA" "BIJAPUR" (by decide) (by decide)).2⟩

/-- Claim C3.  Gate atomicity: a batch containing a null value, or a cell
equal to a forbidden placeholder token, or a district outside the taxonomy
list, produces zero changes to the master table — the validate-and-merge flow
returns the master table unchanged. -/
theorem gate_atomicity (tax : List String) (dIdx : Nat) (negCols : List Nat)
    (master batch : List (List Cell))
    (h : hasNulls batch = true ∨ hasPlaceholders batch = true ∨
         districtsOk tax dIdx batch = false) :
    runMerge tax dIdx negCols master batch = master := by
  unfold runMerge
  have hne : gateCheck tax dIdx negCols batch ≠ GateResult.pass := by
    unfold gateCheck
    rcases h with h | h | h <;> split_ifs <;> simp_all
  rw [if_neg hne]

/-- Witness for C3 on a batch holding one null cell. -/
theorem gate_atomicity_witness :
    hasNulls batchNull = true ∧
    runMerge tax0 0 [1] master0 batchNull = master0 :=
  ⟨by decide, gate_atomicity tax0 0 [1] master0 batchNull (Or.inl (by decide))⟩

/-- Claim C5, counterexample.  On a batch whose district is out of taxonomy
and whose count column holds a negative value, the implemented flow fails on
the negative-value check, not on the referential district check the claimed
order (nulls, placeholders, districts, negatives) would reach first. -/
theorem gate_check_order_cex :
    gateCheck tax0 0 [1] batchNegUnknown = GateResult.failNegative ∧
    specGateCheck tax0 0 [1] batchNegUnknown = GateResult.failDistrict ∧
    GateResult.failNegative ≠ GateResult.failDistrict := by
  decide

/-- Claim C5, amended.  The flow evaluates nulls, then placeholders, then
negative values in the designated count columns, then the district
referential check, failing the whole batch on the first failing check; in
particular a batch free of nulls and placeholders that holds a negative count
is rejected at the negative-value check and the master table is unchanged. -/
theorem gate_check_order (tax : List String) (dIdx : Nat) (negCols : List Nat)
    (master batch : List (List Cell))
    (hn : hasNulls batch = false) (hp : hasPlaceholders batch = false)
    (hneg : hasNegative negCols batch = true) :
    gateCheck tax dIdx negCols batch = GateResult.failNegative ∧
    runMerge tax dIdx negCols master batch = master := by
  have h1 : gateCheck tax dIdx negCols batch = GateResult.failNegative := by
    unfold gateCheck
    simp [hn, hp, hneg]
  refine ⟨h1, ?_⟩
  unfold runMerge
  rw [h1]
  simp

/-- Witness for C5 amended on the negative-count batch. -/
theorem gate_check_order_witness :
    hasNulls batchNegUnknown = false ∧
    hasPlaceholders batchNegUnknown = false ∧
    hasNegative [1] batchNegUnknown = true ∧
    gateCheck tax0 0 [1] batchNegUnknown = GateResult.failNegative ∧
    runMerge tax0 0 [1] master0 batchNegUnknown = master0 :=
  ⟨by decide, by decide, by decide,
   (gate_check_order tax0 0 [1] master0 batchNegUnknown (by decide) (by decide) (by decide)).1,
   (gate_check_order tax0 0 [1] master0 batchNegUnknown (by decide) (by decide) (by decide)).2⟩

/-- Group sums split over a concatenation of batches. -/
theorem sumField_append (f : FullRow → ℚ) (k : String × String) (A B : List FullRow) :
    sumField f k (A ++ B) = sumField f k A + sumField f k B := by
  simp [sumField, rowsFor, List.filter_append]

/-- Claim C2.  Merge-sum invariant: for two batches of corrected records and a
canonical key present in both, aggregating the union gives, on every additive
counter column, the field-wise sum of the two per-batch aggregates, while
every ratio field of the merged row equals its formula applied to the merged
totals (recomputed, never the sum of the per-batch ratios). -/
theorem merge_sum_invariant (A B : List FullRow) (k : String × String)
    (_hA : rowsFor k A ≠ []) (_hB : rowsFor k B ≠ []) :
    (aggregateAt (A ++ B) k).age_0_5
      = (aggregateAt A k).age_0_5 + (aggregateAt B k).age_0_5 ∧
    (aggregateAt (A ++ B) k).age_5_17
      = (aggregateAt A k).age_5_17 + (aggregateAt B k).age_5_17 ∧
    (aggregateAt (A ++ B) k).age_18_greater
      = (aggregateAt A k).age_18_greater + (aggregateAt B k).age_18_greater ∧
    (aggregateAt (A ++ B) k).demo_age_5_17
      = (aggregateAt A k).demo_age_5_17 + (aggregateAt B k).demo_age_5_17 ∧
    (aggregateAt (A ++ B) k).demo_age_17_
      = (aggregateAt A k).demo_age_17_ + (aggregateAt B k).demo_age_17_ ∧
    (aggregateAt (A ++ B) k).bio_age_5_17
      = (aggregateAt A k).bio_age_5_17 + (aggregateAt B k).bio_age_5_17 ∧
    (aggregateAt (A ++ B) k).bio_age_17_
      = (aggregateAt A k).bio_age_17_ + (aggregateAt B k).bio_age_17_ ∧
    (aggregateAt (A ++ B) k).Enrol_Total
      = (aggregateAt A k).Enrol_Total + (aggregateAt B k).Enrol_Total ∧
    (aggregateAt (A ++ B) k).Update_Total
      = (aggregateAt A k).Update_Total + (aggregateAt B k).Update_Total ∧
    (aggregateAt (A ++ B) k).Grand_Total
      = (aggregateAt A k).Grand_Total + (aggregateAt B k).Grand_Total ∧
    (aggregateAt (A ++ B) k).UER_Score
      = (aggregateAt (A ++ B) k).Update_Total / ((aggregateAt (A ++ B) k).Enrol_Total + 1) ∧
    (aggregateAt (A ++ B) k).Adult_Entry_Rate
      = (aggregateAt (A ++ B) k).age_18_greater / ((aggregateAt (A ++ B) k).Enrol_Total + 1) ∧
    (aggregateAt (A ++ B) k).Catch_Up_Index
      = (aggregateAt (A ++ B) k).age_5_17 / ((aggregateAt (A ++ B) k).age_0_5 + 1) := by
  refine ⟨?_, ?_, ?_, ?_, ?_, ?_, ?_, ?_, ?_, ?_, rfl, rfl, rfl⟩ <;>
    simp [aggregateAt, sumField_append]

/-- Witness for C2 on two one-row batches sharing the key
(Telangana, Ranga Reddy). -/
theorem merge_sum_invariant_witness :
    rowsFor ("Telangana", "Ranga Reddy") [wRow1] ≠ [] ∧
    rowsFor ("Telangana", "Ranga Reddy") [wRow2] ≠ [] ∧
    (aggregateAt ([wRow1] ++ [wRow2]) ("Telangana", "Ranga Reddy")).age_0_5
      = (aggregateAt [wRow1] ("Telangana", "Ranga Reddy")).age_0_5
        + (aggregateAt [wRow2] ("Telangana", "Ranga Reddy")).age_0_5 :=
  ⟨by decide, by decide,
   (merge_sum_invariant [wRow1] [wRow2] ("Telangana", "Ranga Reddy")
     (by decide) (by decide)).1⟩

/-- Claim C6, counterexample.  Merging two rows of the same canonical key with
CV_Volatility values 1 and 3 yields CV_Volatility 2 — exactly the average of
the per-row values (`agg_dict['CV_Volatility'] = 'mean'`): the merged value is
obtained by averaging, not re-derived from any per-day series (the merge input
carries no per-day data at all). -/
theorem merged_cv_cex :
    (aggregateAt [⟨"S", "D", 0, 0, 0, 0, 0, 0, 0, 0, 0, 0, 0, 0, 0, "East", 1⟩,
                  ⟨"S", "D", 0, 0, 0, 0, 0, 0, 0, 0, 0, 0, 0, 0, 0, "East", 3⟩]
      ("S", "D")).CV_Volatility = 2 ∧
    ((1 : ℚ) + 3) / 2 = 2 ∧ (2 : ℚ) ≠ 1 + 3 := by
  refine ⟨?_, by norm_num, by norm_num⟩
  simp [aggregateAt, rowsFor]
  norm_num

/-- Claim C6, amended.  When rows with the same canonical key are merged, the
CV_Volatility of the merged row is the arithmetic mean of the per-row
CV_Volatility values (not their sum, and not a re-derivation from per-day
series, which the merge input does not contain). -/
theorem merged_cv_is_mean (rows : List FullRow) (k : String × String)
    (_h : rowsFor k rows ≠ []) :
    (aggregateAt rows k).CV_Volatility =
      ((rowsFor k rows).map FullRow.CV_Volatility).sum / ((rowsFor k rows).length : ℚ) :=
  rfl

/-- Witness for C6 amended on a two-row group. -/
theorem merged_cv_is_mean_witness :
    rowsFor ("Telangana", "Ranga Reddy") [wRow1, wRow2] ≠ [] ∧
    (aggregateAt [wRow1, wRow2] ("Telangana", "Ranga Reddy")).CV_Volatility =
      ((rowsFor ("Telangana", "Ranga Reddy") [wRow1, wRow2]).map FullRow.CV_Volatility).sum /
        ((rowsFor ("Telangana", "Ranga Reddy") [wRow1, wRow2]).length : ℚ) :=
  ⟨by decide, merged_cv_is_mean [wRow1, wRow2] ("Telangana", "Ranga Reddy") (by decide)⟩

/-- Claim C7.  Zero-denominator scenario: an aggregated row with update total
exactly 0 has ghost-proxy ratio `Enrol_Total / (Update_Total + 1)` equal to
its enrolment total — in particular the value 1000 for 1000 enrolments — a
finite value thanks to the `+1` denominator offset. -/
theorem ghost_proxy_zero_updates (r : CountRow)
    (he : enrolTotal r = 1000) (hu : updateTotal r = 0) :
    R6_Ghost_Proxy r = 1000 := by
  unfold R6_Ghost_Proxy
  rw [he, hu]
  norm_num

/-- Witness for C7 on the row with 1000 enrolments and 0 updates. -/
theorem ghost_proxy_zero_updates_witness :
    enrolTotal ghostRow = 1000 ∧ updateTotal ghostRow = 0 ∧
    lowVolumeKeep ghostRow = true ∧ R6_Ghost_Proxy ghostRow = 1000 :=
  ⟨by norm_num [enrolTotal, ghostRow], by norm_num [updateTotal, ghostRow],
   by norm_num [lowVolumeKeep, grandTotal, enrolTotal, updateTotal, ghostRow],
   ghost_proxy_zero_updates ghostRow (by norm_num [enrolTotal, ghostRow])
     (by norm_num [updateTotal, ghostRow])⟩

/-- Claim C8.  Z-score scenario: with batch R4 values `[0.01, 0.02, 0.015,
0.5]`, the z-score `(x - mean) / (std + 1e-5)` against the batch mean is
strictly increasing in `x` for any nonnegative standard deviation, so the row
with value 0.5 receives the strictly highest z-score of the batch. -/
theorem adult_zscore_top_anomaly (σ : ℝ) (hσ : 0 ≤ σ) :
    (∀ x y : ℝ, x < y →
      zscoreR7 ((meanQ r4Values : ℚ) : ℝ) σ x < zscoreR7 ((meanQ r4Values : ℚ) : ℝ) σ y) ∧
    (∀ x ∈ r4Values, x ≠ 1/2 →
      zscoreR7 ((meanQ r4Values : ℚ) : ℝ) σ ((x : ℚ) : ℝ) <
        zscoreR7 ((meanQ r4Values : ℚ) : ℝ) σ (((1 : ℚ)/2 : ℚ) : ℝ)) := by
  have hden : (0 : ℝ) < σ + 1 / 100000 := by linarith
  have key : ∀ x y : ℝ, x < y →
      zscoreR7 ((meanQ r4Values : ℚ) : ℝ) σ x < zscoreR7 ((meanQ r4Values : ℚ) : ℝ) σ y := by
    intro x y hxy
    unfold zscoreR7
    rw [div_lt_div_iff₀ hden hden]
    have hxy2 : x - ((meanQ r4Values : ℚ) : ℝ) < y - ((meanQ r4Values : ℚ) : ℝ) := by
      linarith
    exact mul_lt_mul_of_pos_right hxy2 hden
  refine ⟨key, ?_⟩
  intro x hx hne
  simp only [r4Values] at hx
  fin_cases hx
  · exact key _ _ (by push_cast; norm_num)
  · exact key _ _ (by push_cast; norm_num)
  · exact key _ _ (by push_cast; norm_num)
  · exact absurd rfl hne

/-- Witness for C8 at standard deviation 0 comparing the 0.02 row with the
0.5 row. -/
theorem adult_zscore_top_anomaly_witness :
    (0 : ℝ) ≤ 0 ∧
    zscoreR7 ((meanQ r4Values : ℚ) : ℝ) 0 (((1 : ℚ)/50 : ℚ) : ℝ) <
      zscoreR7 ((meanQ r4Values : ℚ) : ℝ) 0 (((1 : ℚ)/2 : ℚ) : ℝ) :=
  ⟨le_refl 0,
   (adult_zscore_top_anomaly 0 (le_refl 0)).2 (1/50) (by norm_num [r4Values]) (by norm_num)⟩

/-- Claim C10.  Prediction input guarding: when the selected state is unknown
to the fitted state encoder, or the selected district unknown to the fitted
district encoder, the handler reports an error and produces no prediction;
and any produced prediction implies both values were known to the encoders
(so the model is only called on encoder-known inputs). -/
theorem prediction_guard (stateCol districtCol : List String)
    (model : Nat → Nat → Int → Nat → ℚ × ℚ) (s d : String) (year : Int) (month : Nat) :
    ((s ∉ stateCol ∨ d ∉ districtCol) →
      ∃ e, generatePrediction (fitClasses stateCol) (fitClasses districtCol)
            model s d year month = Except.error e) ∧
    (∀ v, generatePrediction (fitClasses stateCol) (fitClasses districtCol)
            model s d year month = Except.ok v → s ∈ stateCol ∧ d ∈ districtCol) := by
  constructor
  · rintro (h | h)
    · exact ⟨PredError.unknownState,
        by simp [generatePrediction, fitClasses, List.mem_dedup, h]⟩
    · by_cases h1 : s ∈ stateCol
      · exact ⟨PredError.unknownDistrict,
          by simp [generatePrediction, fitClasses, List.mem_dedup, h, h1]⟩
      · exact ⟨PredError.unknownState,
          by simp [generatePrediction, fitClasses, List.mem_dedup, h1]⟩
  · intro v hv
    by_cases h1 : s ∈ stateCol
    · by_cases h2 : d ∈ districtCol
      · exact ⟨h1, h2⟩
      · simp [generatePrediction, fitClasses, List.mem_dedup, h1, h2] at hv
    · simp [generatePrediction, fitClasses, List.mem_dedup, h1] at hv

/-- Witness for C10: an unknown state is rejected with an error. -/
theorem prediction_guard_witness :
    ("Goa" ∉ (["Bihar"] : List String) ∨ "Patna" ∉ (["Patna"] : List String)) ∧
    ∃ e, generatePrediction (fitClasses ["Bihar"]) (fitClasses ["Patna"])
          (fun _ _ _ _ => (0, 0)) "Goa" "Patna" 2025 3 = Except.error e :=
  ⟨Or.inl (by decide),
   (prediction_guard ["Bihar"] ["Patna"] (fun _ _ _ _ => (0, 0)) "Goa" "Patna" 2025 3).1
     (Or.inl (by decide))⟩

end Aadhaar
